import Mathlib

/-
Verification development for the bitrix24-api-client library.

Shallow embedding of the request execution, retry, validation, formatting,
pagination and batching logic of:
  src/bitrix24_client/base_client.py     (BaseBitrix24Client)
  src/bitrix24_client/sync_client.py     (Bitrix24Client)
  src/bitrix24_client/async_client.py    (AsyncBitrix24Client)
  src/bitrix24_client/utils.py           (is_valid_url, chunk_batch_requests)

Modelling conventions:
  * JSON values are an inductive `Json`; JSON numbers are modelled as
    integers (all numbers appearing in the verified behaviour - offsets,
    totals, status data - are integral).
  * Python dicts are insertion-ordered association lists with distinct keys.
  * Python exceptions are split into the library's own error hierarchy
    (`ClientError`, rooted at Bitrix24Error) and raw Python exceptions
    (`PyExc`: AttributeError, IndexError, TypeError, ValueError) that the
    library does not wrap.
  * Library / stdlib collaborators that the code calls but does not define
    (json.loads, math.log1p, random.uniform, the HTTP transport) are passed
    in as explicit function parameters (oracles), so every definition stays
    computable; theorems assume only the documented behaviour of those
    collaborators.
  * Exception messages are kept except that quote characters around
    interpolated values are dropped.
-/

namespace Bitrix24

/-- Claim-free data model: JSON values as produced by json.loads, with
integral numbers (sufficient for every behaviour verified here). -/
inductive Json where
  | null
  | bool (b : Bool)
  | num (n : Int)
  | str (s : String)
  | arr (elems : List Json)
  | obj (fields : List (String × Json))

mutual

def Json.decEq : (a b : Json) → Decidable (a = b)
  | .null, .null => .isTrue rfl
  | .bool a, .bool b =>
    if h : a = b then .isTrue (by rw [h]) else .isFalse (fun hc => h (Json.bool.inj hc))
  | .num a, .num b =>
    if h : a = b then .isTrue (by rw [h]) else .isFalse (fun hc => h (Json.num.inj hc))
  | .str a, .str b =>
    if h : a = b then .isTrue (by rw [h]) else .isFalse (fun hc => h (Json.str.inj hc))
  | .arr xs, .arr ys =>
    match Json.decEqList xs ys with
    | .isTrue h => .isTrue (by rw [h])
    | .isFalse h => .isFalse (fun hc => h (Json.arr.inj hc))
  | .obj xs, .obj ys =>
    match Json.decEqFields xs ys with
    | .isTrue h => .isTrue (by rw [h])
    | .isFalse h => .isFalse (fun hc => h (Json.obj.inj hc))
  | .null, .bool _ | .null, .num _ | .null, .str _ | .null, .arr _ | .null, .obj _
  | .bool _, .null | .bool _, .num _ | .bool _, .str _ | .bool _, .arr _ | .bool _, .obj _
  | .num _, .null | .num _, .bool _ | .num _, .str _ | .num _, .arr _ | .num _, .obj _
  | .str _, .null | .str _, .bool _ | .str _, .num _ | .str _, .arr _ | .str _, .obj _
  | .arr _, .null | .arr _, .bool _ | .arr _, .num _ | .arr _, .str _ | .arr _, .obj _
  | .obj _, .null | .obj _, .bool _ | .obj _, .num _ | .obj _, .str _ | .obj _, .arr _ =>
    .isFalse (fun hc => Json.noConfusion hc)

def Json.decEqList : (xs ys : List Json) → Decidable (xs = ys)
  | [], [] => .isTrue rfl
  | [], _ :: _ => .isFalse (fun hc => List.noConfusion hc)
  | _ :: _, [] => .isFalse (fun hc => List.noConfusion hc)
  | x :: xs, y :: ys =>
    match Json.decEq x y with
    | .isFalse h => .isFalse (fun hc => h (List.cons.inj hc).1)
    | .isTrue h1 =>
      match Json.decEqList xs ys with
      | .isTrue h2 => .isTrue (by rw [h1, h2])
      | .isFalse h2 => .isFalse (fun hc => h2 (List.cons.inj hc).2)

def Json.decEqFields : (xs ys : List (String × Json)) → Decidable (xs = ys)
  | [], [] => .isTrue rfl
  | [], _ :: _ => .isFalse (fun hc => List.noConfusion hc)
  | _ :: _, [] => .isFalse (fun hc => List.noConfusion hc)
  | (k, v) :: xs, (l, w) :: ys =>
    if hk : k = l then
      match Json.decEq v w with
      | .isFalse h => .isFalse (fun hc => h (congrArg Prod.snd (List.cons.inj hc).1))
      | .isTrue h1 =>
        match Json.decEqFields xs ys with
        | .isTrue h2 => .isTrue (by rw [hk, h1, h2])
        | .isFalse h2 => .isFalse (fun hc => h2 (List.cons.inj hc).2)
    else .isFalse (fun hc => hk (congrArg Prod.fst (List.cons.inj hc).1))

end

instance : DecidableEq Json := Json.decEq

instance {ε α : Type} [DecidableEq ε] [DecidableEq α] : DecidableEq (Except ε α) :=
  fun a b =>
    match a, b with
    | .ok x, .ok y =>
      if h : x = y then .isTrue (by rw [h])
      else .isFalse (fun hc => h (Except.ok.inj hc))
    | .error x, .error y =>
      if h : x = y then .isTrue (by rw [h])
      else .isFalse (fun hc => h (Except.error.inj hc))
    | .ok _, .error _ => .isFalse (fun hc => Except.noConfusion hc)
    | .error _, .ok _ => .isFalse (fun hc => Except.noConfusion hc)

/-- Python truthiness of a JSON value, as used by `if not next_item` and by
the `or` fallback in the validator. -/
def pyTruthy : Json → Bool
  | .null => false
  | .bool b => b
  | .num n => n ≠ 0
  | .str s => s ≠ ""
  | .arr xs => ¬ xs.isEmpty
  | .obj fs => ¬ fs.isEmpty

/-- Python `a or b` where `a` is an optional JSON value (the result of
`dict.get`, absent key giving None): yields `a` when truthy, else `b`. -/
def pyOr (a : Option Json) (b : Json) : Json :=
  match a with
  | some v => if pyTruthy v then v else b
  | none => b

/-- Raw Python exceptions that escape the library unwrapped. -/
inductive PyExc where
  | attributeError (msg : String)
  | indexError (msg : String)
  | typeError (msg : String)
  | valueError (msg : String)
deriving DecidableEq

/-- The library's own exception hierarchy (src/bitrix24_client/exceptions.py),
all deriving from Bitrix24Error.  `generic` is a plain Bitrix24Error. -/
inductive ClientError where
  | invalidBaseURL (msg : String)
  | connection (msg : String)
  | timeoutErr (msg : String)
  | httpError (status : Nat) (text : String)
  | apiError (code : Option Json) (description : Json)
  | invalidResponse (msg : String)
  | generic (msg : String)
deriving DecidableEq

/-- Every exception a call can surface: a library error or a raw Python one. -/
inductive Err where
  | bitrix (e : ClientError)
  | py (e : PyExc)
deriving DecidableEq

/-- Python `str.lower()`, character by character (the retry strategy names
compared against are plain ASCII). -/
def strLower (s : String) : String :=
  String.mk (s.toList.map Char.toLower)

/-- The `delay` computed by the if/elif chain of
BaseBitrix24Client._calculate_delay before the final clamp; `strategy` is
the already-lowered strategy name and `retry_strategy` the stored original
(used in the ValueError message). -/
def raw_delay (base : ℚ) (strategy retry_strategy : String)
    (log1p : ℚ → ℚ) (unif : ℚ → ℚ) (retries : Nat) : Except Err ℚ :=
  if strategy = "fixed" then
    .ok base
  else if strategy = "linear" then
    .ok (if 0 < retries then base * (retries : ℚ) else base)
  else if strategy = "logarithmic" then
    .ok (if 0 < retries then base * log1p (retries : ℚ) else base)
  else if strategy = "exponential" then
    .ok (base * (2 : ℚ) ^ ((retries : Int) - 1))
  else if strategy = "exponential_jitter" then
    .ok (unif (base * (2 : ℚ) ^ ((retries : Int) - 1)))
  else
    .error (.py (.valueError ("Unknown retry strategy: " ++ retry_strategy)))

/-- Embedding of BaseBitrix24Client._calculate_delay (base_client.py).
`rate_limit_pause` is `self._rate_limit_pause`, `max_delay` is
`self._max_delay`, `retry_strategy` is `self._retry_strategy`.
`log1p` models math.log1p and `unif` models `random.uniform(0, d)`
(applied to the upper bound `d`); both are stdlib collaborators passed as
oracles.  The Python `2 ** (retries - 1)` at `retries = 0` is `2 ** (-1)`,
so the exponent is taken in `Int`.  The computed delay is clamped once at
the end: `return min(delay, self._max_delay)`. -/
def calculate_delay (rate_limit_pause max_delay : ℚ) (retry_strategy : String)
    (log1p : ℚ → ℚ) (unif : ℚ → ℚ) (retries : Nat) : Except Err ℚ :=
  (raw_delay rate_limit_pause (strLower retry_strategy) retry_strategy
      log1p unif retries).map
    (fun d => min d max_delay)

/-- Embedding of utils.is_valid_url: urlparse-based check that the scheme is
http or https and the netloc (text between the double slash and the next
slash) is nonempty.  urlparse itself is stdlib; this renders exactly the
predicate the source tests. -/
def is_valid_url (url : String) : Bool :=
  let cs := url.toList
  if ("http://".toList).isPrefixOf cs then
    ¬ (((cs.drop 7).takeWhile (· ≠ '/')).isEmpty)
  else if ("https://".toList).isPrefixOf cs then
    ¬ (((cs.drop 8).takeWhile (· ≠ '/')).isEmpty)
  else
    false

/-- Helper for `base_url.rstrip('/')`: drop trailing slash characters. -/
def rstripSlash (s : String) : String :=
  String.mk ((s.toList.reverse.dropWhile (· = '/')).reverse)

/-- Client configuration as stored by BaseBitrix24Client.__init__. -/
structure ClientConfig where
  base_url : String
  access_token : String
  user_id : Option Int
  timeout : Int
  rate_limit_pause : ℚ
  max_retries : Nat
  max_delay : ℚ
  retry_strategy : String
deriving DecidableEq

/-- Embedding of BaseBitrix24Client.__init__ (base_client.py): the only
validation performed at construction time is the base-URL check; every other
argument, including the retry strategy name, is stored unchecked. -/
def client_init (base_url access_token : String) (user_id : Option Int)
    (timeout : Int) (rate_limit_pause : ℚ) (max_retries : Nat)
    (max_delay : ℚ) (retry_strategy : String) : Except Err ClientConfig :=
  if is_valid_url base_url then
    .ok {
      base_url := rstripSlash base_url ++ "/"
      access_token := access_token
      user_id := user_id
      timeout := timeout
      rate_limit_pause := rate_limit_pause
      max_retries := max_retries
      max_delay := max_delay
      retry_strategy := retry_strategy }
  else
    .error (.bitrix (.invalidBaseURL ("Invalid base URL: " ++ base_url)))

/-- Python `key in data` (membership test), as in `if "error" in data`:
key containment for dicts, element membership for lists, substring test for
strings, TypeError for non-iterable values. -/
def pyContains (data : Json) (k : String) : Except Err Bool :=
  match data with
  | .obj fields => .ok ((fields.lookup k).isSome)
  | .arr xs => .ok (xs.any (fun x => match x with | .str s => s = k | _ => false))
  | .str s => .ok (decide (List.IsInfix k.toList s.toList))
  | _ => .error (.py (.typeError "argument is not iterable"))

/-- Python `data.get(key)` with default None: dict lookup, AttributeError on
non-dict receivers. -/
def jget (data : Json) (k : String) : Except Err (Option Json) :=
  match data with
  | .obj fields => .ok (fields.lookup k)
  | _ => .error (.py (.attributeError "object has no attribute get"))

/-- Embedding of BaseBitrix24Client._validate_response (base_client.py; the
DefaultResponseValidator in validators/default_validator.py is textually the
same function).  `loads` models json.loads: none models a ValueError on
malformed input, some the parsed value.  A parse failure raises
Bitrix24InvalidResponseError carrying the offending text; a parsed value
containing an `error` key raises Bitrix24APIError with the error code and
`error_description or "No description"`; otherwise the parsed value is
returned. -/
def validate_response (loads : String → Option Json) (response_text : String) :
    Except Err Json :=
  match loads response_text with
  | none =>
    .error (.bitrix (.invalidResponse ("Invalid JSON from Bitrix24: " ++ response_text)))
  | some data =>
    match pyContains data "error" with
    | .error e => .error e
    | .ok true =>
      match jget data "error" with
      | .error e => .error e
      | .ok code =>
        match jget data "error_description" with
        | .error e => .error e
        | .ok desc => .error (.bitrix (.apiError code (pyOr desc (.str "No description"))))
    | .ok false => .ok data

/-- Embedding of BaseBitrix24Client._handle_response (base_client.py; the
DefaultResponseFormatter in response_formatters/default.py is textually the
same function).  `data.get("result", [])`; a dict result is unwrapped by
taking `list(results.keys())[0]` (IndexError on an empty dict); with
fetch_all the `next` and `total` fields are also returned, otherwise both
slots are None. -/
def handle_response (data : Json) (fetch_all : Bool) :
    Except Err (Json × Option Json × Option Json) :=
  match data with
  | .obj fields =>
    let results := (fields.lookup "result").getD (.arr [])
    let unwrapped : Except Err Json :=
      match results with
      | .obj rfields =>
        match rfields with
        | [] => .error (.py (.indexError "list index out of range"))
        | (_, v) :: _ => .ok v
      | r => .ok r
    match unwrapped with
    | .error e => .error e
    | .ok r =>
      if fetch_all then .ok (r, fields.lookup "next", fields.lookup "total")
      else .ok (r, none, none)
  | _ => .error (.py (.attributeError "object has no attribute get"))

/-- Outcome of one physical POST, as signalled by the transport layer
(requests / httpx): a status-and-body response, or one of the transport
exceptions the executor catches. -/
inductive Transport where
  | resp (status : Nat) (text : String)
  | timedOut
  | connFailed
  | reqFailed (msg : String)
deriving DecidableEq

/-- Observable events of one logical call: a physical request (labelled by
the value of the `retries` counter when it is issued) and a retry sleep
(labelled by the argument passed to _calculate_delay - the counter before
its increment - and the computed delay). -/
inductive Event where
  | request (attempt : Nat)
  | sleep (attempt : Nat) (delay : ℚ)
deriving DecidableEq

/-- Embedding of the SYNCHRONOUS executor Bitrix24Client._make_request
(sync_client.py).  `server` gives the transport outcome of the physical
attempt issued with a given `retries` value; `delay_of` is
`self._calculate_delay` (its ValueError on an unknown strategy propagates
out of the loop uncaught); `validate` is `self._validate_response`.  The
`while retries <= self._max_retries` loop is rendered with a fuel argument
that starts at `max_retries + 1` and keeps
`fuel + retries = max_retries + 1`, so fuel exhaustion coincides exactly
with the loop condition turning false, i.e. with the dead post-loop raise.
`response.raise_for_status()` here is requests' raise_for_status, which
raises HTTPError exactly for statuses 400-599; the executor converts it to
Bitrix24HTTPError(status, body).  The loop of
AsyncBitrix24Client._make_request is embedded separately as
async_make_request_aux below: it is structurally identical (the semaphore
scope does not change the sequence of requests, sleeps and raises of one
logical call) but uses httpx's raise_for_status, which raises for every
non-2xx status; on attempts answered with 503 or a 2xx the two executors
behave identically. -/
def make_request_aux (url : String) (max_retries : Nat) (server : Nat → Transport)
    (delay_of : Nat → Except Err ℚ) (validate : String → Except Err Json) :
    Nat → Nat → List Event × Except Err Json
  | 0, _ =>
    ([], .error (.bitrix (.generic ("Exceeded maximum retry attempts for " ++ url))))
  | fuel + 1, retries =>
    if retries ≤ max_retries then
      match server retries with
      | .timedOut =>
        ([.request retries],
         .error (.bitrix (.timeoutErr ("Request to Bitrix24 timed out: " ++ url))))
      | .connFailed =>
        ([.request retries],
         .error (.bitrix (.connection ("Failed to connect to Bitrix24: " ++ url))))
      | .reqFailed msg =>
        ([.request retries],
         .error (.bitrix (.generic ("Request error to Bitrix24: " ++ msg))))
      | .resp status text =>
        if status = 503 then
          if retries = max_retries then
            ([.request retries],
             .error (.bitrix (.generic ("Max retries exceeded for 503 error: " ++ url))))
          else
            match delay_of retries with
            | .error e => ([.request retries], .error e)
            | .ok d =>
              let rest := make_request_aux url max_retries server delay_of validate fuel (retries + 1)
              (.request retries :: .sleep retries d :: rest.1, rest.2)
        else if 400 ≤ status ∧ status ≤ 599 then
          ([.request retries], .error (.bitrix (.httpError status text)))
        else
          ([.request retries], validate text)
    else
      ([], .error (.bitrix (.generic ("Exceeded maximum retry attempts for " ++ url))))

/-- One logical call of _make_request: the loop entered with retries = 0. -/
def make_request (url : String) (max_retries : Nat) (server : Nat → Transport)
    (delay_of : Nat → Except Err ℚ) (validate : String → Except Err Json) :
    List Event × Except Err Json :=
  make_request_aux url max_retries server delay_of validate (max_retries + 1) 0

/-- Embedding of the ASYNCHRONOUS executor
AsyncBitrix24Client._make_request (async_client.py).  Identical in
structure to make_request_aux - the `async with self.semaphore` scope
around the network call does not change the sequence of requests, sleeps
and raises of one logical call - except for the raise_for_status
collaborator: httpx's Response.raise_for_status raises HTTPStatusError for
EVERY non-2xx status (informational and redirect responses included),
which `except httpx.HTTPStatusError` converts to
Bitrix24HTTPError(status, body).  Only a 2xx body reaches the validator. -/
def async_make_request_aux (url : String) (max_retries : Nat)
    (server : Nat → Transport) (delay_of : Nat → Except Err ℚ)
    (validate : String → Except Err Json) :
    Nat → Nat → List Event × Except Err Json
  | 0, _ =>
    ([], .error (.bitrix (.generic ("Exceeded maximum retry attempts for " ++ url))))
  | fuel + 1, retries =>
    if retries ≤ max_retries then
      match server retries with
      | .timedOut =>
        ([.request retries],
         .error (.bitrix (.timeoutErr ("Request to Bitrix24 timed out: " ++ url))))
      | .connFailed =>
        ([.request retries],
         .error (.bitrix (.connection ("Failed to connect to Bitrix24: " ++ url))))
      | .reqFailed msg =>
        ([.request retries],
         .error (.bitrix (.generic ("Request error to Bitrix24: " ++ msg))))
      | .resp status text =>
        if status = 503 then
          if retries = max_retries then
            ([.request retries],
             .error (.bitrix (.generic ("Max retries exceeded for 503 error: " ++ url))))
          else
            match delay_of retries with
            | .error e => ([.request retries], .error e)
            | .ok d =>
              let rest := async_make_request_aux url max_retries server delay_of
                validate fuel (retries + 1)
              (.request retries :: .sleep retries d :: rest.1, rest.2)
        else if ¬ (200 ≤ status ∧ status ≤ 299) then
          ([.request retries], .error (.bitrix (.httpError status text)))
        else
          ([.request retries], validate text)
    else
      ([], .error (.bitrix (.generic ("Exceeded maximum retry attempts for " ++ url))))

/-- One logical call of the async _make_request: the loop entered with
retries = 0. -/
def async_make_request (url : String) (max_retries : Nat)
    (server : Nat → Transport) (delay_of : Nat → Except Err ℚ)
    (validate : String → Except Err Json) : List Event × Except Err Json :=
  async_make_request_aux url max_retries server delay_of validate
    (max_retries + 1) 0

/-- Embedding of Bitrix24Client.open_session (sync_client.py;
AsyncBitrix24Client.open_session is identical): `self._client` is modelled
as an Option (None = closed).  Opening an open session raises
Bitrix24Error and leaves `self._client` untouched. -/
def open_session (client : Option Unit) : Option Unit × Except Err Unit :=
  match client with
  | none => (some (), .ok ())
  | some s => (some s, .error (.bitrix (.generic "Client session is already open.")))

/-- Embedding of Bitrix24Client.close_session (sync_client.py). -/
def close_session (client : Option Unit) : Option Unit × Except Err Unit :=
  match client with
  | some _ => (none, .ok ())
  | none => (none, .error (.bitrix (.generic "Client session is not open.")))

/-- Entry of call_method into _make_request with respect to the session
state: _make_request evaluates `self._client.post(...)` with no None check,
so a closed session raises AttributeError (NoneType has no attribute post)
before any request; an open session runs the executor.  The returned first
component is the (unchanged) session state. -/
def call_method_session (client : Option Unit)
    (run : Unit → List Event × Except Err Json) :
    Option Unit × (List Event × Except Err Json) :=
  match client with
  | none =>
    (none, ([], .error (.py (.attributeError "NoneType object has no attribute post"))))
  | some s => (some s, run s)

/-- Python `range(start, stop, step)` for a positive step (ascending):
the offsets `start + i * step` for `i < ceil((stop - start) / step)`,
with natural subtraction giving the empty range when `stop ≤ start`. -/
def pyRangeUp (start stop step : Nat) : List Nat :=
  (List.range ((stop - start + step - 1) / step)).map (fun i => start + i * step)

/-- Embedding of utils.chunk_batch_requests: the list comprehension
`[{k: commands[k] for k in list(commands.keys())[i:i + chunk_size]}
  for i in range(0, len(commands), chunk_size)]`.
The dict is an insertion-ordered association list with distinct keys, so
the per-chunk dict comprehension over a slice of the key list equals the
corresponding slice of the pair list. -/
def chunk_batch_requests (commands : List (String × Json)) (chunk_size : Nat) :
    List (List (String × Json)) :=
  (pyRangeUp 0 commands.length chunk_size).map
    (fun i => (commands.drop i).take chunk_size)

/-- Python `params[k] = v` on an insertion-ordered dict: overwrite in place
when the key exists, else append. -/
def pySet (params : List (String × Json)) (k : String) (v : Json) :
    List (String × Json) :=
  if params.any (fun p => p.1 = k) then
    params.map (fun p => if p.1 = k then (k, v) else p)
  else
    params ++ [(k, v)]

/-- Python `acc.extend(item)` on a list `acc`: appends the elements of any
iterable (list elements, string characters, dict keys); TypeError when the
argument is not iterable, AttributeError when the receiver is not a list. -/
def pyExtend (acc item : Json) : Except Err Json :=
  match acc with
  | .arr xs =>
    match item with
    | .arr ys => .ok (.arr (xs ++ ys))
    | .str s => .ok (.arr (xs ++ s.toList.map (fun c => .str (String.mk [c]))))
    | .obj fs => .ok (.arr (xs ++ fs.map (fun p => .str p.1)))
    | _ => .error (.py (.typeError "object is not iterable"))
  | _ => .error (.py (.attributeError "object has no attribute extend"))

/-- Semantics of `asyncio.gather(*tasks)`: the tasks complete in an
arbitrary scheduler-chosen order (the `order` list of task indices), each
completion storing its result in the slot of that task's index, and gather
returns the slots in task order.  `pages` gives each task's result; a slot
no completion wrote reads as null (gather awaits all tasks, so with a
complete schedule every slot is written). -/
def gather (pages : List Json) (order : List Nat) : List Json :=
  let table := order.foldl (fun t i => Function.update t i (pages.getD i .null))
    (fun _ => Json.null)
  (List.range pages.length).map table

/-- Truthiness of `dict.get`-style optional values (None is falsy). -/
def pyTruthyOpt : Option Json → Bool
  | none => false
  | some j => pyTruthy j

/-- Embedding of AsyncBitrix24Client._fetch_all_pages (async_client.py).
`make_req` is one logical `self._make_request(url, ·)` call keyed by the
parameter dict (the url is fixed); `order` is the completion order of the
gathered tasks.  The first request uses the caller's params; if its `next`
is falsy the first page's results are returned at once; otherwise one task
is created per offset in `range(page_size, total, page_size)` with
page_size = 50 and `params["start"] = start`, all tasks are gathered
(a failing task propagates its error and aborts the fetch - mapM - exactly
as gather propagates the exception), and each gathered page's results are
appended with `all_results.extend(...)` in task (offset) order. -/
def run_tasks (make_req : List (String × Json) → Except Err Json) :
    List (List (String × Json)) → Except Err (List Json)
  | [] => .ok []
  | task :: rest =>
    match make_req task with
    | .error e => .error e
    | .ok page =>
      match run_tasks make_req rest with
      | .error e => .error e
      | .ok pages => .ok (page :: pages)

/-- The trailing loop of _fetch_all_pages:
`for page in pages: page_results, _, _ = self._handle_response(page, True);
 all_results.extend(page_results)`. -/
def extend_pages : Json → List Json → Except Err Json
  | acc, [] => .ok acc
  | acc, page :: rest =>
    match handle_response page true with
    | .error e => .error e
    | .ok (page_results, _, _) =>
      match pyExtend acc page_results with
      | .error e => .error e
      | .ok acc2 => extend_pages acc2 rest

/-- Embedding of AsyncBitrix24Client._fetch_all_pages (async_client.py).
`make_req` is one logical `self._make_request(url, ·)` call keyed by the
parameter dict (the url is fixed); `order` is the completion order of the
gathered tasks.  The first request uses the caller's params; if its `next`
is falsy the first page's results are returned at once; otherwise one task
is created per offset in `range(page_size, total, page_size)` with
page_size = 50 and `params["start"] = start` (range requires an integer
`total`: a missing or non-integer total is a TypeError), the tasks are
gathered (run_tasks: a failing task propagates its error and aborts the
fetch, as gather propagates the first exception), and each gathered page's
results are appended with `all_results.extend(...)` in task (offset)
order. -/
def fetch_all_pages (make_req : List (String × Json) → Except Err Json)
    (params : List (String × Json)) (order : List Nat) : Except Err Json :=
  match make_req params with
  | .error e => .error e
  | .ok data =>
    match handle_response data true with
    | .error e => .error e
    | .ok (results, next_item, total) =>
      if pyTruthyOpt next_item = false then .ok results
      else
        match total with
        | some (.num n) =>
          let page_size := 50
          let offsets := pyRangeUp page_size n.toNat page_size
          let tasks := offsets.map (fun s => pySet params "start" (.num (Int.ofNat s)))
          match run_tasks make_req tasks with
          | .error e => .error e
          | .ok pages => extend_pages results (gather pages order)
        | some _ => .error (.py (.typeError "range argument must be int"))
        | none => .error (.py (.typeError "range argument must be int, not NoneType"))

lemma map_min_ok {E : Except Err ℚ} {m d : ℚ}
    (h : E.map (fun x => min x m) = .ok d) : ∃ x, E = .ok x ∧ d = min x m := by
  cases E with
  | error e => simp [Except.map] at h
  | ok x => exact ⟨x, rfl, by simpa [Except.map] using h.symm⟩

/-- Claim C6: for every retry policy accepted by _calculate_delay and every
attempt number at least 0, the computed delay lies in the closed interval
[0, max_delay]: no policy returns a delay exceeding max_delay or a negative
delay.  (Stated for a nonnegative base pause and max_delay - the
configuration the spec describes - with math.log1p and random.uniform
assumed to satisfy their documented sign bounds.) -/
theorem delay_within_bounds (base maxd : ℚ) (strat : String) (lg uf : ℚ → ℚ)
    (r : Nat) (d : ℚ)
    (hb : 0 ≤ base) (hm : 0 ≤ maxd)
    (hl : ∀ x : ℚ, 0 ≤ x → 0 ≤ lg x)
    (hu : ∀ x : ℚ, 0 ≤ x → 0 ≤ uf x ∧ uf x ≤ x)
    (hok : calculate_delay base maxd strat lg uf r = .ok d) :
    0 ≤ d ∧ d ≤ maxd := by
  have hpow : (0 : ℚ) ≤ (2 : ℚ) ^ ((r : Int) - 1) := by positivity
  obtain ⟨x, hE, rfl⟩ := map_min_ok hok
  refine ⟨le_min ?_ hm, min_le_right _ _⟩
  unfold raw_delay at hE
  split_ifs at hE
  all_goals try simp only [Except.ok.injEq] at hE
  all_goals try subst hE
  all_goals first
    | exact hb
    | exact mul_nonneg hb (by positivity)
    | exact mul_nonneg hb (hl _ (by positivity))
    | exact mul_nonneg hb hpow
    | exact (hu _ (mul_nonneg hb hpow)).1

/-- Witness for delay_within_bounds: the fixed policy with base 1 and
max_delay 20 at attempt 0 yields delay 1, which lies in [0, 20]. -/
theorem delay_within_bounds_witness :
    (0 : ℚ) ≤ 1 ∧ (0 : ℚ) ≤ 20 ∧
      calculate_delay 1 20 "fixed" id id 0 = .ok 1 ∧
      ((0 : ℚ) ≤ 1 ∧ (1 : ℚ) ≤ 20) := by
  have hok : calculate_delay 1 20 "fixed" id id 0 = .ok 1 := by
    unfold calculate_delay raw_delay
    rw [if_pos (by decide)]
    simp [Except.map]
  exact ⟨by norm_num, by norm_num, hok,
    delay_within_bounds 1 20 "fixed" id id 0 1 (by norm_num) (by norm_num)
      (fun x hx => hx) (fun x hx => ⟨hx, le_refl x⟩) hok⟩

/-- Claim C4 counterexample: constructing a client with the unknown retry
strategy name "bogus" does NOT raise at construction time - client_init
succeeds and stores the name - and the ValueError surfaces only when
_calculate_delay is first evaluated. -/
theorem unknown_strategy_counterexample :
    client_init "https://x.bitrix24.ru" "tok" none 10 1 5 20 "bogus"
      = .ok { base_url := "https://x.bitrix24.ru/", access_token := "tok",
              user_id := none, timeout := 10, rate_limit_pause := 1,
              max_retries := 5, max_delay := 20, retry_strategy := "bogus" }
    ∧ calculate_delay 1 20 "bogus" id id 0
      = .error (.py (.valueError "Unknown retry strategy: bogus")) :=
  ⟨by decide, by decide⟩

/-- Claim C4 amended: constructing a client with a retry strategy name
outside the five known policies succeeds (only the base URL is validated at
construction); the unknown name raises a ValueError at the first delay
computation (i.e. the first 503 retry), not at construction time. -/
theorem unknown_strategy_deferred (base_url access_token : String)
    (user_id : Option Int) (timeout : Int) (rate_limit_pause : ℚ)
    (max_retries : Nat) (max_delay : ℚ) (strategy : String) (lg uf : ℚ → ℚ)
    (hurl : is_valid_url base_url = true)
    (hs : strLower strategy ∉
      ["fixed", "linear", "logarithmic", "exponential", "exponential_jitter"]) :
    client_init base_url access_token user_id timeout rate_limit_pause
        max_retries max_delay strategy
      = .ok { base_url := rstripSlash base_url ++ "/",
              access_token := access_token, user_id := user_id,
              timeout := timeout, rate_limit_pause := rate_limit_pause,
              max_retries := max_retries, max_delay := max_delay,
              retry_strategy := strategy }
    ∧ ∀ r : Nat, calculate_delay rate_limit_pause max_delay strategy lg uf r
        = .error (.py (.valueError ("Unknown retry strategy: " ++ strategy))) := by
  have h1 : ¬ strLower strategy = "fixed" := fun h => hs (by simp [h])
  have h2 : ¬ strLower strategy = "linear" := fun h => hs (by simp [h])
  have h3 : ¬ strLower strategy = "logarithmic" := fun h => hs (by simp [h])
  have h4 : ¬ strLower strategy = "exponential" := fun h => hs (by simp [h])
  have h5 : ¬ strLower strategy = "exponential_jitter" := fun h => hs (by simp [h])
  constructor
  · simp [client_init, hurl]
  · intro r
    simp [calculate_delay, raw_delay, h1, h2, h3, h4, h5, Except.map]

/-- Witness for unknown_strategy_deferred at the concrete strategy name
"bogus" and a concrete valid base URL. -/
theorem unknown_strategy_deferred_witness :
    is_valid_url "https://x.bitrix24.ru" = true
    ∧ strLower "bogus" ∉
        ["fixed", "linear", "logarithmic", "exponential", "exponential_jitter"]
    ∧ (client_init "https://x.bitrix24.ru" "tok" none 10 1 5 20 "bogus"
        = .ok { base_url := rstripSlash "https://x.bitrix24.ru" ++ "/",
                access_token := "tok", user_id := none, timeout := 10,
                rate_limit_pause := 1, max_retries := 5, max_delay := 20,
                retry_strategy := "bogus" }
      ∧ ∀ r : Nat, calculate_delay 1 20 "bogus" id id r
          = .error (.py (.valueError "Unknown retry strategy: bogus"))) :=
  ⟨by decide, by decide,
   unknown_strategy_deferred "https://x.bitrix24.ru" "tok" none 10 1 5 20
     "bogus" id id (by decide) (by decide)⟩

/-- Claim C5 amended: opening an already-open session raises a lifecycle
Bitrix24Error and leaves the session open; invoking call_method while no
session is open performs no request and raises a Python AttributeError
(attribute access on the absent session object) - not a client lifecycle
error - and does not create a session. -/
theorem session_lifecycle (s : Unit) (run : Unit → List Event × Except Err Json) :
    open_session (some s)
      = (some s, .error (.bitrix (.generic "Client session is already open.")))
    ∧ call_method_session none run
      = (none,
         ([], .error (.py (.attributeError "NoneType object has no attribute post")))) :=
  ⟨rfl, rfl⟩

/-- Claim C5 counterexample: calling a method with no session open surfaces
a raw Python AttributeError, not one of the library's lifecycle
Bitrix24Error values (in particular not the "Client session is not open."
error that close_session uses). -/
theorem session_lifecycle_counterexample :
    (call_method_session none (fun _ => ([], .ok Json.null))).2.2
      = .error (.py (.attributeError "NoneType object has no attribute post"))
    ∧ (call_method_session none (fun _ => ([], .ok Json.null))).2.2
      ≠ .error (.bitrix (.generic "Client session is not open.")) :=
  ⟨rfl, fun h => Err.noConfusion (Except.error.inj h)⟩

/-- Claim C8: the response formatter returns a list `result` unchanged,
unwraps a mapping `result` one level by taking the value under its first
key, and, when pagination metadata is not requested (fetch_all = False),
always returns an absent cursor and an absent total. -/
theorem format_result (fields : List (String × Json)) :
    (∀ xs, fields.lookup "result" = some (.arr xs) →
        handle_response (.obj fields) false = .ok (.arr xs, none, none))
    ∧ (∀ k v rest, fields.lookup "result" = some (.obj ((k, v) :: rest)) →
        handle_response (.obj fields) false = .ok (v, none, none))
    ∧ (∀ data r nx tot, handle_response data false = .ok (r, nx, tot) →
        nx = none ∧ tot = none) := by
  refine ⟨fun xs h => ?_, fun k v rest h => ?_, fun data r nx tot h => ?_⟩
  · simp [handle_response, h]
  · simp [handle_response, h]
  · cases data <;> simp [handle_response] at h
    split at h
    · exact absurd h (by simp)
    · simp at h
      exact ⟨h.2.1.symm, h.2.2.symm⟩

/-- Witness for format_result: a list result [1,2,3] passes through
unchanged and a mapping result under the key ITEMS unwraps to its value,
both with absent cursor and total. -/
theorem format_result_witness :
    handle_response (.obj [("result", .arr [.num 1, .num 2, .num 3])]) false
      = .ok (.arr [.num 1, .num 2, .num 3], none, none)
    ∧ handle_response
        (.obj [("result", .obj [("ITEMS", .arr [.num 1, .num 2, .num 3])])]) false
      = .ok (.arr [.num 1, .num 2, .num 3], none, none) :=
  ⟨(format_result _).1 _ rfl, (format_result _).2.1 "ITEMS" _ [] rfl⟩

/-- Claim C10: the formatter's one-level unwrap is partial - a `result`
that is an empty mapping fails with an IndexError (a raw Python exception,
not one of the library's error kinds), while a missing `result` key yields
the empty list and a list or non-empty-mapping `result` succeeds. -/
theorem unwrap_partial :
    handle_response (.obj [("result", .obj [])]) false
      = .error (.py (.indexError "list index out of range"))
    ∧ handle_response (.obj []) false = .ok (.arr [], none, none)
    ∧ (∀ fields xs, fields.lookup "result" = some (Json.arr xs) →
        ∃ out, handle_response (.obj fields) false = .ok out)
    ∧ (∀ fields k v rest,
        fields.lookup "result" = some (Json.obj ((k, v) :: rest)) →
        ∃ out, handle_response (.obj fields) false = .ok out) := by
  refine ⟨rfl, rfl, fun fields xs h => ?_, fun fields k v rest h => ?_⟩
  · exact ⟨_, (format_result fields).1 xs h⟩
  · exact ⟨_, (format_result fields).2.1 k v rest h⟩

/-- Witness for unwrap_partial: the quantified success cases instantiated
at a concrete list result and a concrete non-empty mapping result. -/
theorem unwrap_partial_witness :
    ([("result", Json.arr [])].lookup "result" = some (Json.arr []))
    ∧ (∃ out, handle_response (.obj [("result", .arr [])]) false = .ok out)
    ∧ (∃ out, handle_response (.obj [("result", .obj [("X", .num 7)])]) false
        = .ok out) :=
  ⟨rfl, unwrap_partial.2.2.1 _ [] rfl, unwrap_partial.2.2.2 _ "X" (.num 7) [] rfl⟩

lemma ceil_div_zero (c : Nat) : (c - 1) / c = 0 := by
  rcases Nat.eq_zero_or_pos c with rfl | hc
  · rfl
  · exact Nat.div_eq_of_lt (by omega)

lemma ceil_div_succ {c n : Nat} (hc : 0 < c) (hn : 0 < n) :
    (n + c - 1) / c = ((n - c) + c - 1) / c + 1 := by
  have h1 : n + c - 1 = (n - 1) + c := by omega
  rw [h1, Nat.add_div_right _ hc]
  rcases le_or_lt c n with h | h
  · have h2 : (n - c) + c - 1 = n - 1 := by omega
    rw [h2]
  · have h0 : n - c = 0 := by omega
    rw [h0, Nat.div_eq_of_lt (by omega : n - 1 < c),
      Nat.div_eq_of_lt (by omega : 0 + c - 1 < c)]

lemma chunk_batch_requests_nil (c : Nat) : chunk_batch_requests [] c = [] := by
  simp [chunk_batch_requests, pyRangeUp, ceil_div_zero]

lemma chunk_batch_requests_cons (commands : List (String × Json)) (c : Nat)
    (hc : 0 < c) (hne : commands ≠ []) :
    chunk_batch_requests commands c
      = commands.take c :: chunk_batch_requests (commands.drop c) c := by
  have hn : 0 < commands.length := List.length_pos.mpr hne
  have hK : (commands.length - 0 + c - 1) / c
      = ((commands.drop c).length - 0 + c - 1) / c + 1 := by
    rw [List.length_drop]
    simpa using ceil_div_succ hc hn
  unfold chunk_batch_requests pyRangeUp
  rw [hK, List.range_succ_eq_map]
  simp only [List.map_cons, List.map_map]
  congr 1
  · simp
  · refine List.map_congr_left (fun i _ => ?_)
    simp only [Function.comp_apply]
    show (commands.drop (0 + (i + 1) * c)).take c
        = ((commands.drop c).drop (0 + i * c)).take c
    rw [List.drop_drop]
    have h2 : c + (0 + i * c) = 0 + (i + 1) * c := by ring
    rw [h2]

lemma chunk_length_aux (c : Nat) (hc : 0 < c) :
    ∀ (n : Nat) (commands : List (String × Json)), commands.length ≤ n →
      (chunk_batch_requests commands c).length = (commands.length + c - 1) / c := by
  intro n
  induction n with
  | zero =>
    intro cmds h
    have he : cmds = [] := List.eq_nil_of_length_eq_zero (by omega)
    subst he
    simp [chunk_batch_requests_nil, ceil_div_zero]
  | succ n ih =>
    intro cmds h
    rcases eq_or_ne cmds [] with rfl | hne
    · simp [chunk_batch_requests_nil, ceil_div_zero]
    · have hn : 0 < cmds.length := List.length_pos.mpr hne
      rw [chunk_batch_requests_cons cmds c hc hne, List.length_cons,
        ih (cmds.drop c) (by rw [List.length_drop]; omega), List.length_drop]
      exact (ceil_div_succ hc hn).symm

lemma chunk_mem_aux (c : Nat) (hc : 0 < c) :
    ∀ (n : Nat) (commands : List (String × Json)), commands.length ≤ n →
      ∀ ch ∈ chunk_batch_requests commands c, ch.length ≤ c := by
  intro n
  induction n with
  | zero =>
    intro cmds h
    have he : cmds = [] := List.eq_nil_of_length_eq_zero (by omega)
    subst he
    simp [chunk_batch_requests_nil]
  | succ n ih =>
    intro cmds h
    rcases eq_or_ne cmds [] with rfl | hne
    · simp [chunk_batch_requests_nil]
    · rw [chunk_batch_requests_cons cmds c hc hne]
      intro ch hch
      rcases List.mem_cons.mp hch with rfl | hmem
      · rw [List.length_take]
        omega
      · exact ih (cmds.drop c) (by rw [List.length_drop]; omega) ch hmem

lemma chunk_join_aux (c : Nat) (hc : 0 < c) :
    ∀ (n : Nat) (commands : List (String × Json)), commands.length ≤ n →
      (chunk_batch_requests commands c).flatten = commands := by
  intro n
  induction n with
  | zero =>
    intro cmds h
    have he : cmds = [] := List.eq_nil_of_length_eq_zero (by omega)
    subst he
    simp [chunk_batch_requests_nil]
  | succ n ih =>
    intro cmds h
    rcases eq_or_ne cmds [] with rfl | hne
    · simp [chunk_batch_requests_nil]
    · rw [chunk_batch_requests_cons cmds c hc hne]
      simp only [List.flatten_cons]
      rw [ih (cmds.drop c) (by rw [List.length_drop]; omega)]
      exact List.take_append_drop c cmds

/-- Claim C9: for every command mapping and chunk size c over 0, batch
chunking yields ceil(n/c) ordered chunks, each of size at most c, whose
concatenation is exactly the original mapping - so every original key
appears in exactly one chunk and the original key order is preserved
within and across chunks. -/
theorem chunking_partition (commands : List (String × Json)) (c : Nat)
    (hc : 0 < c) :
    (chunk_batch_requests commands c).length = (commands.length + c - 1) / c
    ∧ (∀ ch ∈ chunk_batch_requests commands c, ch.length ≤ c)
    ∧ (chunk_batch_requests commands c).flatten = commands :=
  ⟨chunk_length_aux c hc commands.length commands (le_refl _),
   chunk_mem_aux c hc commands.length commands (le_refl _),
   chunk_join_aux c hc commands.length commands (le_refl _)⟩

/-- Witness for chunking_partition: three commands with chunk size 2 yield
2 chunks (sizes 2 and 1) that concatenate back to the original mapping. -/
theorem chunking_partition_witness :
    0 < 2
    ∧ ((chunk_batch_requests
          [("a", Json.num 1), ("b", Json.num 2), ("c", Json.num 3)] 2).length
        = (3 + 2 - 1) / 2
      ∧ (∀ ch ∈ chunk_batch_requests
          [("a", Json.num 1), ("b", Json.num 2), ("c", Json.num 3)] 2,
          ch.length ≤ 2)
      ∧ (chunk_batch_requests
          [("a", Json.num 1), ("b", Json.num 2), ("c", Json.num 3)] 2).flatten
        = [("a", Json.num 1), ("b", Json.num 2), ("c", Json.num 3)]) :=
  ⟨by decide,
   chunking_partition [("a", Json.num 1), ("b", Json.num 2), ("c", Json.num 3)]
     2 (by decide)⟩

/-- Claim C7: response validation raises the invalid-response error,
carrying the offending text, exactly when the body fails to parse as JSON;
and a parsed mapping containing an `error` key raises the API error
carrying the error code and the supplied description (with the generic
fallback "No description" when none is supplied, i.e. when the
`error_description` field is absent or falsy), even when a `result` field
is also present (`fields` is arbitrary). -/
theorem validator_spec (loads : String → Option Json) :
    (∀ text, loads text = none →
        validate_response loads text
          = .error (.bitrix (.invalidResponse
              ("Invalid JSON from Bitrix24: " ++ text))))
    ∧ (∀ text msg,
        validate_response loads text = .error (.bitrix (.invalidResponse msg)) →
        loads text = none)
    ∧ (∀ text fields code, loads text = some (.obj fields) →
        fields.lookup "error" = some code →
        validate_response loads text
          = .error (.bitrix (.apiError (some code)
              (pyOr (fields.lookup "error_description") (.str "No description"))))) := by
  refine ⟨fun text h => ?_, fun text msg h => ?_, fun text fields code hl hc => ?_⟩
  · simp [validate_response, h]
  · cases hl : loads text with
    | none => rfl
    | some data =>
      exfalso
      unfold validate_response at h
      rw [hl] at h
      cases data <;> simp only [pyContains, jget] at h <;> try split at h
      all_goals simp_all
  · simp [validate_response, hl, pyContains, jget, hc]

/-- Witness for validator_spec: a body that fails to parse raises the
invalid-response error carrying the text, and a parsed envelope with both
an error and a result raises the API error with the supplied code and
description. -/
theorem validator_spec_witness :
    validate_response (fun t => if t = "err" then
        some (.obj [("error", .str "E"), ("error_description", .str "D"),
                    ("result", .arr [.num 1])]) else none) "bad"
      = .error (.bitrix (.invalidResponse "Invalid JSON from Bitrix24: bad"))
    ∧ validate_response (fun t => if t = "err" then
        some (.obj [("error", .str "E"), ("error_description", .str "D"),
                    ("result", .arr [.num 1])]) else none) "err"
      = .error (.bitrix (.apiError (some (.str "E")) (.str "D"))) :=
  ⟨(validator_spec _).1 "bad" (by decide),
   (validator_spec _).2.2 "err"
     [("error", .str "E"), ("error_description", .str "D"),
      ("result", .arr [.num 1])] (.str "E") (by decide) (by decide)⟩

/-- Claim C3 amended: for every HTTP status in the 4xx/5xx range
(400-599) other than 503, BOTH request executors fail on the first attempt
with an HTTP error carrying that status and the response body text - one
physical request, no sleep, and the retry strategy (delay_of) is never
consulted (the conclusions hold for every delay_of); moreover the
asynchronous executor does so for EVERY non-2xx status other than 503
(httpx's raise_for_status raises for every non-2xx), while the synchronous
executor hands the body of a non-2xx status outside 400-599 to the
validator as on success (see the counterexample at status 304). -/
theorem http_error_no_retry (url : String) (m : Nat) (server : Nat → Transport)
    (delay_of : Nat → Except Err ℚ) (validate : String → Except Err Json)
    (s : Nat) (text : String)
    (hs : server 0 = .resp s text) (hn : s ≠ 503) :
    (400 ≤ s → s ≤ 599 →
      make_request url m server delay_of validate
        = ([.request 0], .error (.bitrix (.httpError s text))))
    ∧ (¬ (200 ≤ s ∧ s ≤ 299) →
      async_make_request url m server delay_of validate
        = ([.request 0], .error (.bitrix (.httpError s text)))) := by
  constructor
  · intro h4 h5
    unfold make_request make_request_aux
    simp [hs, hn, h4, h5, Nat.zero_le]
  · intro h2
    unfold async_make_request async_make_request_aux
    simp [hs, hn, h2, Nat.zero_le]

/-- Witness for http_error_no_retry: a 404 with body text nf fails the
synchronous executor at once with the HTTP error 404/nf after exactly one
request, and a 304 fails the asynchronous executor at once with the HTTP
error 304 after exactly one request. -/
theorem http_error_no_retry_witness :
    ((fun _ : Nat => Transport.resp 404 "nf") 0 = Transport.resp 404 "nf")
    ∧ (404 : Nat) ≠ 503 ∧ 400 ≤ 404 ∧ 404 ≤ 599
    ∧ make_request "u" 5 (fun _ => .resp 404 "nf") (fun _ => .ok 1)
        (fun _ => .ok .null)
      = ([.request 0], .error (.bitrix (.httpError 404 "nf")))
    ∧ ((304 : Nat) ≠ 503 ∧ ¬ (200 ≤ 304 ∧ (304 : Nat) ≤ 299))
    ∧ async_make_request "u" 5 (fun _ => .resp 304 "{}") (fun _ => .ok 1)
        (fun _ => .ok .null)
      = ([.request 0], .error (.bitrix (.httpError 304 "{}"))) :=
  ⟨rfl, by omega, by omega, by omega,
   (http_error_no_retry "u" 5 _ _ _ 404 "nf" rfl (by omega)).1 (by omega) (by omega),
   ⟨by omega, by omega⟩,
   (http_error_no_retry "u" 5 _ _ _ 304 "{}" rfl (by omega)).2 (by omega)⟩

/-- Claim C3 counterexample: HTTP status 304 is neither 2xx nor 503, yet
the synchronous executor does not fail with an HTTP error there - requests
raise_for_status raises only for 400-599, so the 304 body is handed to the
validator and the call succeeds; the asynchronous executor at the same
input does convert 304 to the HTTP error (httpx raise_for_status raises
for every non-2xx status), so the original claim fails on the synchronous
executor. -/
theorem http_error_counterexample :
    make_request "u" 5 (fun _ => .resp 304 "{}") (fun _ => .ok 1)
        (validate_response (fun t => if t = "{}" then some (.obj []) else none))
      = ([.request 0], .ok (.obj []))
    ∧ (make_request "u" 5 (fun _ => .resp 304 "{}") (fun _ => .ok 1)
        (validate_response (fun t => if t = "{}" then some (.obj []) else none))).2
      ≠ .error (.bitrix (.httpError 304 "{}"))
    ∧ async_make_request "u" 5 (fun _ => .resp 304 "{}") (fun _ => .ok 1)
        (validate_response (fun t => if t = "{}" then some (.obj []) else none))
      = ([.request 0], .error (.bitrix (.httpError 304 "{}"))) :=
  ⟨by decide, by decide, by decide⟩

lemma make_request_aux_step (url : String) (m : Nat) (server : Nat → Transport)
    (delay_of : Nat → Except Err ℚ) (validate : String → Except Err Json)
    (fuel retries : Nat) :
    make_request_aux url m server delay_of validate (fuel + 1) retries
      = if retries ≤ m then
          match server retries with
          | .timedOut =>
            ([.request retries],
             .error (.bitrix (.timeoutErr ("Request to Bitrix24 timed out: " ++ url))))
          | .connFailed =>
            ([.request retries],
             .error (.bitrix (.connection ("Failed to connect to Bitrix24: " ++ url))))
          | .reqFailed msg =>
            ([.request retries],
             .error (.bitrix (.generic ("Request error to Bitrix24: " ++ msg))))
          | .resp status text =>
            if status = 503 then
              if retries = m then
                ([.request retries],
                 .error (.bitrix (.generic ("Max retries exceeded for 503 error: " ++ url))))
              else
                match delay_of retries with
                | .error e => ([.request retries], .error e)
                | .ok d =>
                  let rest := make_request_aux url m server delay_of validate fuel (retries + 1)
                  (.request retries :: .sleep retries d :: rest.1, rest.2)
            else if 400 ≤ status ∧ status ≤ 599 then
              ([.request retries], .error (.bitrix (.httpError status text)))
            else
              ([.request retries], validate text)
        else
          ([], .error (.bitrix (.generic ("Exceeded maximum retry attempts for " ++ url)))) :=
  rfl

lemma make_request_aux_skip503 (url : String) (m : Nat) (server : Nat → Transport)
    (delay_of : Nat → Except Err ℚ) (validate : String → Except Err Json)
    (bs : Nat → String) (ds : Nat → ℚ) :
    ∀ (k r : Nat), r + k = m →
      (∀ i, r ≤ i → i < m → server i = .resp 503 (bs i)) →
      (∀ i, r ≤ i → i < m → delay_of i = .ok (ds i)) →
      make_request_aux url m server delay_of validate (k + 1) r
        = (((List.range' r k).map
              (fun i => [Event.request i, Event.sleep i (ds i)])).flatten
            ++ (make_request_aux url m server delay_of validate 1 m).1,
           (make_request_aux url m server delay_of validate 1 m).2) := by
  intro k
  induction k with
  | zero =>
    intro r hr _ _
    have hrm : r = m := by omega
    subst hrm
    simp
  | succ k ih =>
    intro r hr h503 hd
    have hrm : r < m := by omega
    have hle : r ≤ m := by omega
    have hne : ¬ r = m := by omega
    have hrec := ih (r + 1) (by omega)
      (fun i hi1 hi2 => h503 i (by omega) hi2)
      (fun i hi1 hi2 => hd i (by omega) hi2)
    rw [make_request_aux_step]
    simp [hle, hne, h503 r (le_refl r) hrm, hd r (le_refl r) hrm, hrec,
      List.range'_succ]

/-- Claim C1: with max_retries = m, a logical call whose server answers 503
on every attempt issues exactly the physical requests 0..m, with exactly m
delayed retries in between (each delay computed by passing the attempt
counter to _calculate_delay before the counter is incremented), and then
terminates with the "Max retries exceeded" Bitrix24Error and no further
request; while a call whose server answers m 503s followed by a 2xx on the
final allowed attempt m succeeds and returns the validated parsed
envelope - with the same m delayed retries. -/
theorem retry_exhaustion (url : String) (m : Nat) (server1 server2 : Nat → Transport)
    (delay_of : Nat → Except Err ℚ) (validate : String → Except Err Json)
    (bs1 bs2 : Nat → String) (ds : Nat → ℚ) (st : Nat) (body : String) (env : Json)
    (h1 : ∀ i, i ≤ m → server1 i = .resp 503 (bs1 i))
    (hd : ∀ i, i < m → delay_of i = .ok (ds i))
    (h2a : ∀ i, i < m → server2 i = .resp 503 (bs2 i))
    (h2b : server2 m = .resp st body)
    (h2c : 200 ≤ st) (h2d : st ≤ 299)
    (hv : validate body = .ok env) :
    make_request url m server1 delay_of validate
      = (((List.range' 0 m).map
            (fun i => [Event.request i, Event.sleep i (ds i)])).flatten
          ++ [Event.request m],
         .error (.bitrix (.generic ("Max retries exceeded for 503 error: " ++ url))))
    ∧ make_request url m server2 delay_of validate
      = (((List.range' 0 m).map
            (fun i => [Event.request i, Event.sleep i (ds i)])).flatten
          ++ [Event.request m],
         .ok env) := by
  have hfin1 : make_request_aux url m server1 delay_of validate 1 m
      = ([Event.request m],
         .error (.bitrix (.generic ("Max retries exceeded for 503 error: " ++ url)))) := by
    rw [show (1 : Nat) = 0 + 1 from rfl, make_request_aux_step]
    simp [h1 m (le_refl m)]
  have hfin2 : make_request_aux url m server2 delay_of validate 1 m
      = ([Event.request m], .ok env) := by
    rw [show (1 : Nat) = 0 + 1 from rfl, make_request_aux_step]
    simp [h2b, hv]
    rw [if_neg (by omega : ¬ st = 503), if_neg (by omega : ¬ (400 ≤ st ∧ st ≤ 599))]
  constructor
  · have hskip := make_request_aux_skip503 url m server1 delay_of validate bs1 ds
      m 0 (by omega) (fun i hi1 hi2 => h1 i (by omega)) (fun i hi1 hi2 => hd i hi2)
    unfold make_request
    rw [hskip, hfin1]
  · have hskip := make_request_aux_skip503 url m server2 delay_of validate bs2 ds
      m 0 (by omega) (fun i hi1 hi2 => h2a i hi2) (fun i hi1 hi2 => hd i hi2)
    unfold make_request
    rw [hskip, hfin2]

/-- Witness for retry_exhaustion: max_retries = 2.  An all-503 server
yields requests 0,1,2 with sleeps after attempts 0 and 1 and the terminal
max-retries error; a server answering 503,503,200 yields the same trace
and the parsed envelope. -/
theorem retry_exhaustion_witness :
    (∀ i, i ≤ 2 →
      (fun _ : Nat => Transport.resp 503 "busy") i = Transport.resp 503 "busy")
    ∧ make_request "u" 2 (fun _ => .resp 503 "busy") (fun _ => .ok 1)
        (fun t => if t = "ok" then .ok (Json.obj [])
                  else .error (.bitrix (.invalidResponse t)))
      = ([.request 0, .sleep 0 1, .request 1, .sleep 1 1, .request 2],
         .error (.bitrix (.generic "Max retries exceeded for 503 error: u")))
    ∧ make_request "u" 2
        (fun i => if i < 2 then .resp 503 "busy" else .resp 200 "ok")
        (fun _ => .ok 1)
        (fun t => if t = "ok" then .ok (Json.obj [])
                  else .error (.bitrix (.invalidResponse t)))
      = ([.request 0, .sleep 0 1, .request 1, .sleep 1 1, .request 2],
         .ok (.obj [])) := by
  have h := retry_exhaustion "u" 2 (fun _ => .resp 503 "busy")
    (fun i => if i < 2 then .resp 503 "busy" else .resp 200 "ok")
    (fun _ => .ok 1)
    (fun t => if t = "ok" then .ok (Json.obj [])
              else .error (.bitrix (.invalidResponse t)))
    (fun _ => "busy") (fun _ => "busy") (fun _ => 1) 200 "ok" (.obj [])
    (fun i _ => rfl) (fun i _ => rfl)
    (fun i hi => by simp [hi])
    (by simp) (by omega) (by omega) (by decide)
  exact ⟨fun i _ => rfl, h.1.trans (by decide), h.2.trans (by decide)⟩

lemma update_foldl_apply (f : Nat → Json) (order : List Nat) (t0 : Nat → Json)
    (j : Nat) :
    (order.foldl (fun t i => Function.update t i (f i)) t0) j
      = if j ∈ order then f j else t0 j := by
  induction order generalizing t0 with
  | nil => simp
  | cons i σ ih =>
    simp only [List.foldl_cons]
    rw [ih, Function.update_apply]
    by_cases hj : j ∈ σ
    · simp [hj, List.mem_cons]
    · by_cases hij : j = i
      · subst hij
        simp [hj]
      · simp [hj, hij, List.mem_cons]

lemma map_getD_range (l : List Json) :
    (List.range l.length).map (fun i => l.getD i .null) = l := by
  induction l with
  | nil => rfl
  | cons x xs ih =>
    rw [List.length_cons, List.range_succ_eq_map, List.map_cons, List.map_map]
    have htail : (List.range xs.length).map
        ((fun i => (x :: xs).getD i Json.null) ∘ Nat.succ) = xs :=
      (List.map_congr_left (fun i _ => rfl)).trans ih
    rw [htail]
    rfl

/-- Completion-order independence of gather: whenever the completion
schedule covers every task index, the gathered list is the task-order list
of results, whatever the order of completions. -/
lemma gather_complete (pages : List Json) (order : List Nat)
    (hcov : ∀ j, j < pages.length → j ∈ order) :
    gather pages order = pages := by
  unfold gather
  calc (List.range pages.length).map
        (order.foldl (fun t i => Function.update t i (pages.getD i .null))
          (fun _ => Json.null))
      = (List.range pages.length).map (fun j => pages.getD j .null) := by
        refine List.map_congr_left (fun j hj => ?_)
        rw [update_foldl_apply]
        simp [hcov j (List.mem_range.mp hj)]
    _ = pages := map_getD_range pages

lemma run_tasks_ok {α : Type} (make_req : List (String × Json) → Except Err Json)
    (h : α → List (String × Json)) (g : α → Json) :
    ∀ (xs : List α), (∀ x ∈ xs, make_req (h x) = .ok (g x)) →
      run_tasks make_req (xs.map h) = .ok (xs.map g) := by
  intro xs
  induction xs with
  | nil => intro _; rfl
  | cons x xs ih =>
    intro hall
    simp only [List.map_cons, run_tasks, hall x (by simp),
      ih (fun y hy => hall y (by simp [hy]))]

lemma extend_pages_ok (pg : Nat → List (String × Json)) (rs : Nat → List Json) :
    ∀ (offsets : List Nat) (acc : List Json),
      (∀ s ∈ offsets, (pg s).lookup "result" = some (.arr (rs s))) →
      extend_pages (.arr acc) (offsets.map (fun s => Json.obj (pg s)))
        = .ok (.arr (acc ++ (offsets.map rs).flatten)) := by
  intro offsets
  induction offsets with
  | nil => intro acc _; simp [extend_pages]
  | cons s σ ih =>
    intro acc hall
    have hr : (pg s).lookup "result" = some (.arr (rs s)) := hall s (by simp)
    have hrec := ih (acc ++ rs s) (fun y hy => hall y (by simp [hy]))
    simp only [List.map_cons, extend_pages, handle_response, hr, pyExtend,
      Option.getD_some, if_true]
    rw [hrec]
    simp [List.append_assoc]

/-- Claim C2 amended: in the concurrent client's fetch-all mode, when the
first page has a truthy next cursor and integer total t, the remaining
requests are issued at exactly the offsets 50, 100, ... that is,
range(50, t, 50) - fixed steps of the constant page size 50 starting at
offset 50, regardless of the first page's actual item count - and the
returned list is the first page's results followed by the pages' results
in ascending offset (task) order, for every completion order of the
gathered requests that covers all tasks; when the first page has no next
cursor it is returned immediately as the complete result. -/
theorem fetch_all_offsets (make_req : List (String × Json) → Except Err Json)
    (params : List (String × Json)) (order : List Nat)
    (fields : List (String × Json)) (first : List Json) (nx : Json) (t : Int)
    (pg : Nat → List (String × Json)) (rs : Nat → List Json)
    (h1 : make_req params = .ok (.obj fields))
    (hres : fields.lookup "result" = some (.arr first))
    (hnext : fields.lookup "next" = some nx)
    (hnx : pyTruthy nx = true)
    (htot : fields.lookup "total" = some (.num t))
    (hpages : ∀ s ∈ pyRangeUp 50 t.toNat 50,
        make_req (pySet params "start" (.num (Int.ofNat s))) = .ok (.obj (pg s)))
    (hrs : ∀ s ∈ pyRangeUp 50 t.toNat 50,
        (pg s).lookup "result" = some (.arr (rs s)))
    (horder : ∀ j, j < (pyRangeUp 50 t.toNat 50).length → j ∈ order) :
    fetch_all_pages make_req params order
      = .ok (.arr (first ++ ((pyRangeUp 50 t.toNat 50).map rs).flatten))
    ∧ ∀ (make_req2 : List (String × Json) → Except Err Json)
        (fields2 : List (String × Json)) (r2 : List Json),
        make_req2 params = .ok (.obj fields2) →
        fields2.lookup "result" = some (.arr r2) →
        fields2.lookup "next" = none →
        fetch_all_pages make_req2 params order = .ok (.arr r2) := by
  constructor
  · have hh : handle_response (.obj fields) true
        = .ok (.arr first, some nx, some (.num t)) := by
      simp [handle_response, hres, hnext, htot]
    have htasks : run_tasks make_req
        ((pyRangeUp 50 t.toNat 50).map
          (fun s => pySet params "start" (.num (Int.ofNat s))))
        = .ok ((pyRangeUp 50 t.toNat 50).map (fun s => Json.obj (pg s))) :=
      run_tasks_ok make_req _ _ _ hpages
    have hgather : gather
        ((pyRangeUp 50 t.toNat 50).map (fun s => Json.obj (pg s))) order
        = (pyRangeUp 50 t.toNat 50).map (fun s => Json.obj (pg s)) :=
      gather_complete _ order (by simpa using horder)
    unfold fetch_all_pages
    simp only [h1, hh]
    rw [if_neg (by simp [pyTruthyOpt, hnx])]
    simp only [htasks, hgather]
    exact extend_pages_ok pg rs _ first hrs
  · intro make_req2 fields2 r2 h2 hres2 hnext2
    have hh2 : handle_response (.obj fields2) true
        = .ok (.arr r2, none, fields2.lookup "total") := by
      simp [handle_response, hres2, hnext2]
    unfold fetch_all_pages
    simp only [h2, hh2]
    simp [pyTruthyOpt]

/-- Fixture for the fetch-all witness: a server answering the first page
with 50-item-page metadata (next = 50, total = 120) and the offset pages at
start = 50 and start = 100; any other request errors. -/
def fetch_demo_server : List (String × Json) → Except Err Json := fun p =>
  match p with
  | [] => .ok (.obj [("result", .arr [.str "a"]), ("next", .num 50),
                     ("total", .num 120)])
  | [("start", .num 50)] => .ok (.obj [("result", .arr [.str "b"])])
  | [("start", .num 100)] => .ok (.obj [("result", .arr [.str "c"])])
  | _ => .error (.bitrix (.generic "unexpected request"))

/-- Fixture: the offset pages' envelopes of fetch_demo_server. -/
def fetch_demo_pg (s : Nat) : List (String × Json) :=
  if s = 50 then [("result", .arr [.str "b"])] else [("result", .arr [.str "c"])]

/-- Fixture: the offset pages' result lists of fetch_demo_server. -/
def fetch_demo_rs (s : Nat) : List Json :=
  if s = 50 then [.str "b"] else [.str "c"]

/-- Witness for fetch_all_offsets: total 120 with page size 50 gives tasks
at offsets 50 and 100, and even under the reversed completion order [1, 0]
the result is the pages concatenated in ascending offset order. -/
theorem fetch_all_offsets_witness :
    pyRangeUp 50 (120 : Int).toNat 50 = [50, 100]
    ∧ (∀ j, j < (pyRangeUp 50 (120 : Int).toNat 50).length → j ∈ [1, 0])
    ∧ fetch_all_pages fetch_demo_server [] [1, 0]
        = .ok (.arr [.str "a", .str "b", .str "c"]) := by
  refine ⟨by decide, by decide, ?_⟩
  have h := (fetch_all_offsets fetch_demo_server [] [1, 0]
    [("result", .arr [.str "a"]), ("next", .num 50), ("total", .num 120)]
    [.str "a"] (.num 50) 120 fetch_demo_pg fetch_demo_rs
    (by decide) (by decide) (by decide) (by decide) (by decide)
    (by decide) (by decide) (by decide)).1
  exact h.trans (by decide)

/-- Claim C2 counterexample: the first page has ONE item and next = 1
(truthy) with total = 60.  The claim as stated places the remaining
requests at offsets in steps of 50 from the first page's size - offsets 1
and 51 - but the code requests exactly range(50, 60, 50) = offset 50: with
a server that only answers the empty params and start = 50 and errors on
any other offset, the fetch succeeds and returns the page at offset 50
appended to the first page. -/
theorem fetch_all_offsets_counterexample :
    fetch_all_pages (fun p =>
      match p with
      | [] => .ok (.obj [("result", .arr [.str "a"]), ("next", .num 1),
                         ("total", .num 60)])
      | [("start", .num 50)] => .ok (.obj [("result", .arr [.str "b"])])
      | _ => .error (.bitrix (.generic "unexpected request"))) [] [0]
      = .ok (.arr [.str "a", .str "b"]) := by decide

end Bitrix24
